import Mathlib

/-!
Shallow embedding of the resilience core of `singularity-payments-py`:
the error taxonomy (`core/mpesa/utils/errors.py`), the retry engine
(`core/mpesa/utils/retry.py`), the two rate limiters
(`singularity_payments/core/mpesa/utils/ratelimiter.py`), the rate-limited
request executor (`core/mpesa/client/mpesa_client.py`, `makeRequest` /
`handleStkCallback`) and the callback reconciliation engine
(`singularity_payments/core/mpesa/utils/callback.py`).

Python exceptions are modelled as values of an inductive `PyErr`; fallible
code returns `Except PyErr α`.  Mutable stores are passed explicitly.
Timestamps and millisecond durations are `Int` (Python ints).  Python `//`
(floor division) is `Int.fdiv`.
-/

/-! ## Error taxonomy (`core/mpesa/utils/errors.py`) -/

/-- Which `MpesaError` subclass an error value is an instance of. -/
inductive MKind where
  | base
  | auth
  | validation
  | network
  | timeout
  | rateLimit
  | api
  deriving DecidableEq, Repr

/-- The `details` dict attached to an `MpesaRateLimitError` raised by a rate
limiter: `{"limit": ..., "windowMs": ..., "resetAt": ...}` (the Redis
limiter omits `resetAt`, hence the `Option`). -/
structure RateLimitDetails where
  limit : Int
  windowMs : Int
  resetAt : Option Int
  deriving DecidableEq, Repr

/-- An `MpesaError` instance: the base-class attributes set by
`MpesaError.__init__` plus the subclass tag and subclass-specific
attributes (`is_retryable` on network errors, `retry_after` on rate-limit
errors, rate-limit `details` when structured). -/
structure MErr where
  kind : MKind
  message : String
  code : Option String
  statusCode : Option Int
  isRetryableAttr : Option Bool
  retryAfter : Option Int
  details : Option RateLimitDetails
  deriving DecidableEq, Repr

/-- `MpesaAuthError(message)`. -/
def mpesaAuthError (message : String) : MErr :=
  ⟨.auth, message, some "AUTH_ERROR", some 401, none, none, none⟩

/-- `MpesaValidationError(message)`. -/
def mpesaValidationError (message : String) : MErr :=
  ⟨.validation, message, some "VALIDATION_ERROR", some 400, none, none, none⟩

/-- `MpesaNetworkError(message, is_retryable)`. -/
def mpesaNetworkError (message : String) (isRetryable : Bool) : MErr :=
  ⟨.network, message, some "NETWORK_ERROR", some 503, some isRetryable, none, none⟩

/-- `MpesaTimeoutError(message)`. -/
def mpesaTimeoutError (message : String) : MErr :=
  ⟨.timeout, message, some "TIMEOUT_ERROR", some 408, none, none, none⟩

/-- `MpesaRateLimitError(message, retry_after, details)`. -/
def mpesaRateLimitError (message : String) (retryAfter : Option Int)
    (details : Option RateLimitDetails) : MErr :=
  ⟨.rateLimit, message, some "RATE_LIMIT_ERROR", some 429, none, retryAfter, details⟩

/-- `MpesaApiError(message, code, status_code)` (response body not tracked). -/
def mpesaApiError (message : String) (code : String) (statusCode : Int) : MErr :=
  ⟨.api, message, some code, some statusCode, none, none, none⟩

/-- The Python class name of an `MErr`, used in `TypeError` messages. -/
def MKind.className : MKind → String
  | .base => "MpesaError"
  | .auth => "MpesaAuthError"
  | .validation => "MpesaValidationError"
  | .network => "MpesaNetworkError"
  | .timeout => "MpesaTimeoutError"
  | .rateLimit => "MpesaRateLimitError"
  | .api => "MpesaApiError"

/-- A Python exception as observed by this codebase: the `MpesaError`
hierarchy plus the builtin exceptions the code can raise or meet
(`TypeError`, `ValueError`, `KeyError`, `AttributeError`) and a generic
"anything else" with the optional `name` / `code` attributes that
`isRetryableError` probes with `getattr`. -/
inductive PyErr where
  | mpesa (e : MErr)
  | typeError (message : String)
  | valueError (message : String)
  | keyError (key : String)
  | attributeError (message : String)
  | other (name : Option String) (code : Option String) (message : String)
  deriving DecidableEq, Repr

/-- Python truthiness of an optional int attribute (`None` and `0` are falsy). -/
def truthyInt : Option Int → Bool
  | none => false
  | some n => n != 0

/-! ## Retry engine (`core/mpesa/utils/retry.py`) -/

/-- A fully-populated `RetryOptions` dict (the merge of
`DEFAULT_RETRY_OPTIONS` with the caller's overrides).  The `onRetry`
callback is observational only (logging/metrics) and is not modelled. -/
structure RetryOptions where
  maxRetries : Nat
  initialDelayMs : Int
  maxDelayMs : Int
  backoffMultiplier : Int
  retryableStatusCodes : List Int
  deriving DecidableEq, Repr

/-- `DEFAULT_RETRY_OPTIONS`. -/
def DEFAULT_RETRY_OPTIONS : RetryOptions :=
  ⟨3, 1000, 10000, 2, [408, 429, 500, 502, 503, 504]⟩

/-- A caller-supplied partial `RetryOptions` dict (absent keys are `none`). -/
structure PartialRetryOptions where
  maxRetries : Option Nat := none
  initialDelayMs : Option Int := none
  maxDelayMs : Option Int := none
  backoffMultiplier : Option Int := none
  retryableStatusCodes : Option (List Int) := none
  deriving DecidableEq, Repr

/-- `{**DEFAULT_RETRY_OPTIONS, **(options or {})}`: field-by-field merge of
the caller's options over the defaults. -/
def mergeRetryOptions (options : Option PartialRetryOptions) : RetryOptions :=
  let p := options.getD {}
  ⟨p.maxRetries.getD DEFAULT_RETRY_OPTIONS.maxRetries,
   p.initialDelayMs.getD DEFAULT_RETRY_OPTIONS.initialDelayMs,
   p.maxDelayMs.getD DEFAULT_RETRY_OPTIONS.maxDelayMs,
   p.backoffMultiplier.getD DEFAULT_RETRY_OPTIONS.backoffMultiplier,
   p.retryableStatusCodes.getD DEFAULT_RETRY_OPTIONS.retryableStatusCodes⟩

/-- The message of the `TypeError` raised by `error["..."]` on an exception
object (exceptions do not support subscripting in Python 3). -/
def subscriptTypeError (e : MErr) : PyErr :=
  .typeError (String.append (String.append "'" e.kind.className)
    "' object is not subscriptable")

/-- `isRetryableError(error, retryableStatusCodes)` from `retry.py`.

Mirrors the source line by line:
* an `MpesaNetworkError` returns its `is_retryable` attribute
  (`getattr(error, "is_retryable", False)`);
* an `MpesaRateLimitError` returns `True`;
* any other `MpesaError` with a truthy `status_code` evaluates
  `error["status_code"]`, which raises `TypeError` (an exception object is
  not subscriptable), so the call itself raises;
* otherwise the `FetchError` / `ECONNREFUSED` / `ETIMEDOUT` probe via
  `getattr`, else `False`. -/
def isRetryableError (error : PyErr) (retryableStatusCodes : List Int) :
    Except PyErr Bool :=
  match error with
  | .mpesa e =>
    if e.kind = .network then .ok (e.isRetryableAttr.getD false)
    else if e.kind = .rateLimit then .ok true
    else if truthyInt e.statusCode then .error (subscriptTypeError e)
    else .ok (decide (e.code = some "ECONNREFUSED" ∨ e.code = some "ETIMEDOUT"))
  | .other name code _ =>
    .ok (decide (name = some "FetchError" ∨
      code = some "ECONNREFUSED" ∨ code = some "ETIMEDOUT"))
  | _ => .ok false

/-- `calculateDelay(attempt, options, error)` from `retry.py`.

For an `MpesaRateLimitError` with a truthy `retry_after` the source
evaluates `error["retry_after"]`, which raises `TypeError`.  Otherwise the
pre-jitter delay is `min(initialDelayMs * backoffMultiplier ** attempt,
maxDelayMs)`; the multiplicative jitter `floor(delay * 0.2 * uniform(-1,1))`
is abstracted as the integer draw `jitterDraw` added to the capped delay
(no claim depends on the delay's magnitude, only on whether a sleep
happens). -/
def calculateDelay (attempt : Nat) (options : RetryOptions)
    (error : Option PyErr) (jitterDraw : Int) : Except PyErr Int :=
  match error with
  | some (.mpesa e) =>
    if e.kind = .rateLimit ∧ truthyInt e.retryAfter then
      .error (subscriptTypeError e)
    else
      .ok (min (options.initialDelayMs * options.backoffMultiplier ^ attempt)
        options.maxDelayMs + jitterDraw)
  | _ =>
    .ok (min (options.initialDelayMs * options.backoffMultiplier ^ attempt)
      options.maxDelayMs + jitterDraw)

/-- `raise last_error` after the `for` loop falls through (`raise None` is a
`TypeError`; the loop body always raises on its last iteration, so this is
dead code in the source and unreachable in the embedding). -/
def raiseLastError : Option PyErr → PyErr
  | some e => e
  | none => .typeError "exceptions must derive from BaseException"

/-- The observable outcome of one `retryWithBackoff` run: the value
returned or exception raised, the attempt indices at which `fn` was
invoked, and the backoff delays slept (in ms, pre division by 1000). -/
structure RetryTrace (α : Type) where
  result : Except PyErr α
  invoked : List Nat
  sleeps : List Int
  deriving Repr

/-- Number of times `fn` was invoked in a run. -/
def RetryTrace.fnCalls (t : RetryTrace α) : Nat := t.invoked.length

/-- The `for attempt in range(opts["maxRetries"] + 1)` loop of
`retryWithBackoff`.  `fn i` is the outcome of the `i`-th invocation of the
wrapped operation (an arbitrary single-process behaviour), `jit i` the
jitter draw consumed by `calculateDelay` on attempt `i`.  `fuel` is the
number of loop iterations remaining; the loop is entered with
`fuel = maxRetries + 1` and `attempt = 0`.

Each iteration mirrors the source: invoke `fn`; on success return; on error
evaluate `not isRetryableError(...) or attempt == maxRetries`
left-to-right (a `TypeError` from the classifier propagates), re-raising
the original error when the condition holds; otherwise compute the delay
(a `TypeError` from `calculateDelay` propagates), invoke `onRetry`
(observational, not modelled), sleep, and continue. -/
def retryLoop (fn : Nat → Except PyErr α) (opts : RetryOptions)
    (jit : Nat → Int) : Nat → Nat → Option PyErr → RetryTrace α
  | 0, _, lastError => ⟨.error (raiseLastError lastError), [], []⟩
  | fuel + 1, attempt, _ =>
    match fn attempt with
    | .ok v => ⟨.ok v, [attempt], []⟩
    | .error e =>
      match isRetryableError e opts.retryableStatusCodes with
      | .error te => ⟨.error te, [attempt], []⟩
      | .ok retryable =>
        if ¬retryable ∨ attempt = opts.maxRetries then
          ⟨.error e, [attempt], []⟩
        else
          match calculateDelay attempt opts (some e) (jit attempt) with
          | .error te => ⟨.error te, [attempt], []⟩
          | .ok delay =>
            let rest := retryLoop fn opts jit fuel (attempt + 1) (some e)
            ⟨rest.result, attempt :: rest.invoked, delay :: rest.sleeps⟩

/-- `retryWithBackoff(fn, options)`: merge the options over the defaults and
run the attempt loop. -/
def retryWithBackoff (fn : Nat → Except PyErr α)
    (options : Option PartialRetryOptions) (jit : Nat → Int) : RetryTrace α :=
  let opts := mergeRetryOptions options
  retryLoop fn opts jit (opts.maxRetries + 1) 0 none

/-! ## Rate limiters (`singularity_payments/core/mpesa/utils/ratelimiter.py`) -/

/-- `RateLimiterOptions` after `__init__` merged the `"keyPrefix": "mpesa"`
default (field named `keyPfx` here; it embeds the source's key-prefix
option). -/
structure RLOptions where
  maxRequests : Int
  windowMs : Int
  keyPfx : String
  deriving DecidableEq, Repr

/-- A `RateLimitEntry` dict: `{count, resetAt}`. -/
structure RLEntry where
  count : Int
  resetAt : Int
  deriving DecidableEq, Repr

/-- The in-memory store `self.store: Dict[str, RateLimitEntry]`. -/
def RLStore : Type := String → Option RLEntry

/-- The empty store. -/
def emptyRLStore : RLStore := fun _ => none

/-- `self.store[k] = e`. -/
def setRL (st : RLStore) (k : String) (e : RLEntry) : RLStore :=
  fun k' => if k' = k then some e else st k'

/-- `f"{self.options['keyPrefix']}:{key}"`. -/
def fullKey (opts : RLOptions) (key : String) : String :=
  String.append (String.append opts.keyPfx ":") key

/-- `RateLimiter.checkLimit(key)` at wall-clock time `now` (ms).

On admit the call returns the updated store; a rejection raises
`MpesaRateLimitError` (before any mutation, so the store is unchanged).
`(entry["resetAt"] - now + 999) // 1000` is Python floor division,
`Int.fdiv`. -/
def checkLimit (st : RLStore) (opts : RLOptions) (key : String) (now : Int) :
    Except MErr RLStore :=
  let fk := fullKey opts key
  match st fk with
  | none => .ok (setRL st fk ⟨1, now + opts.windowMs⟩)
  | some entry =>
    if now ≥ entry.resetAt then
      .ok (setRL st fk ⟨1, now + opts.windowMs⟩)
    else if entry.count ≥ opts.maxRequests then
      let retryAfter := (entry.resetAt - now + 999).fdiv 1000
      .error (mpesaRateLimitError
        (String.append (String.append "Rate limit exceeded. Try again in "
          (toString retryAfter)) " seconds.")
        (some retryAfter)
        (some ⟨opts.maxRequests, opts.windowMs, some entry.resetAt⟩))
    else
      .ok (setRL st fk ⟨entry.count + 1, entry.resetAt⟩)

/-- Run a sequence of `checkLimit` calls on the same key at the given
timestamps, recording each admit (`true`) / reject (`false`) decision.
A rejection leaves the store unchanged (the source raises before
mutating). -/
def runCheckCalls (opts : RLOptions) (key : String) :
    RLStore → List Int → List Bool
  | _, [] => []
  | st, t :: ts =>
    match checkLimit st opts key t with
    | .ok st' => true :: runCheckCalls opts key st' ts
    | .error _ => false :: runCheckCalls opts key st ts

/-- A Redis key's state: the integer counter and its absolute expiry time
in ms, if an expiry was attached.  Models the minimal `RedisLike`
capability (`incr` / `expire` / `get`) used by `RedisRateLimiter`; a key
whose expiry has passed behaves as absent. -/
structure RedisEntry where
  value : Int
  expireAt : Option Int
  deriving DecidableEq, Repr

/-- The external counter store. -/
def RedisStore : Type := String → Option RedisEntry

/-- The empty external store. -/
def emptyRedisStore : RedisStore := fun _ => none

/-- Write one key of the external store. -/
def setRedis (st : RedisStore) (k : String) (e : RedisEntry) : RedisStore :=
  fun k' => if k' = k then some e else st k'

/-- The live entry at `k` at time `now`: `none` if absent or expired
(expired once `now ≥ expireAt`, matching the local limiter's inclusive
`now ≥ resetAt` window boundary). -/
def redisLive (st : RedisStore) (k : String) (now : Int) : Option RedisEntry :=
  match st k with
  | none => none
  | some e =>
    match e.expireAt with
    | none => some e
    | some x => if now ≥ x then none else some e

/-- `redis.incr(key)`: increment the live counter, or create it at 1 with
no expiry; returns the post-increment value and the new store. -/
def redisIncr (st : RedisStore) (k : String) (now : Int) : Int × RedisStore :=
  match redisLive st k now with
  | some e => (e.value + 1, setRedis st k ⟨e.value + 1, e.expireAt⟩)
  | none => (1, setRedis st k ⟨1, none⟩)

/-- `redis.expire(key, seconds)`: attach an expiry of `seconds` seconds to
the live key (no-op on an absent key). -/
def redisExpire (st : RedisStore) (k : String) (now : Int) (seconds : Int) :
    RedisStore :=
  match redisLive st k now with
  | some e => setRedis st k ⟨e.value, some (now + seconds * 1000)⟩
  | none => st

/-- `redis.get(key)` projected to the stored counter value (`none` for an
absent/expired key). -/
def redisGet (st : RedisStore) (k : String) (now : Int) : Option Int :=
  (redisLive st k now).map (·.value)

/-- `RedisRateLimiter.checkLimit(key)` at time `now`.

Mirrors the source: `incr`; if the post-increment count is exactly 1,
`expire` the key for `(windowMs + 999) // 1000` seconds; if the count
exceeds `maxRequests`, read the companion `"...:ttl"` key for a best-effort
retry-after (never written by this class, so the fallback
`(windowMs + 999) // 1000` applies from a fresh store) and raise.  The
`incr` (and `expire`) mutations persist even when the call raises, so the
result carries the post-call store alongside the outcome. -/
def redisCheckLimit (st : RedisStore) (opts : RLOptions) (key : String)
    (now : Int) : Except MErr Unit × RedisStore :=
  let fk := fullKey opts key
  let res := redisIncr st fk now
  let count := res.1
  let st1 := res.2
  let st2 := if count = 1 then
    redisExpire st1 fk now ((opts.windowMs + 999).fdiv 1000) else st1
  if count > opts.maxRequests then
    let ttl := redisGet st2 (String.append fk ":ttl") now
    let retryAfter := match ttl with
      | some v => v
      | none => (opts.windowMs + 999).fdiv 1000
    (.error (mpesaRateLimitError
      (String.append (String.append "Rate limit exceeded. Try again in "
        (toString retryAfter)) " seconds.")
      (some retryAfter)
      (some ⟨opts.maxRequests, opts.windowMs, none⟩)), st2)
  else
    (.ok (), st2)

/-- Run a sequence of Redis-limiter `checkLimit` calls on the same key,
recording admit/reject decisions; the store mutations persist across
rejections. -/
def runRedisCalls (opts : RLOptions) (key : String) :
    RedisStore → List Int → List Bool
  | _, [] => []
  | st, t :: ts =>
    match redisCheckLimit st opts key t with
    | (.ok _, st') => true :: runRedisCalls opts key st' ts
    | (.error _, st') => false :: runRedisCalls opts key st' ts

/-! ## Request executor (`MpesaClient.makeRequest`) -/

/-- The `_request` closure of `MpesaClient.makeRequest`, as the behaviour of
its `i`-th invocation: first `checkLimit` runs (when a limiter and a
rate-limit key are configured; `checkSeq i` is its outcome on invocation
`i`), and only if it admits does the network attempt happen (`netSeq i`:
token fetch, HTTP post and error translation, abstracted as an arbitrary
outcome).  A `checkLimit` rejection therefore raises before any network
attempt of that invocation. -/
def makeRequestFn (checkSeq : Nat → Except MErr Unit)
    (netSeq : Nat → Except PyErr α) (i : Nat) : Except PyErr α :=
  match checkSeq i with
  | .error e => .error (.mpesa e)
  | .ok _ => netSeq i

/-- `MpesaClient.makeRequest`: run `_request` under
`retryWithBackoff(_request, self.retryOptions)`. -/
def makeRequest (checkSeq : Nat → Except MErr Unit)
    (netSeq : Nat → Except PyErr α) (retryOptions : Option PartialRetryOptions)
    (jit : Nat → Int) : RetryTrace α :=
  retryWithBackoff (makeRequestFn checkSeq netSeq) retryOptions jit

/-- How many invocations of `_request` in a run reached the network call,
i.e. were admitted by the limiter. -/
def networkAttempts (t : RetryTrace α) (checkSeq : Nat → Except MErr Unit) :
    Nat :=
  (t.invoked.filter (fun i => (checkSeq i).isOk)).length

/-- Does a run's outcome raise an `MpesaRateLimitError`? -/
def resultIsRateLimit : Except PyErr α → Bool
  | .error (.mpesa e) => e.kind = .rateLimit
  | _ => false

/-! ## Callback engine (`singularity_payments/core/mpesa/utils/callback.py`) -/

/-- A loosely-typed JSON-ish Python value, as delivered in callback
payloads. -/
inductive PyVal where
  | vstr (s : String)
  | vint (n : Int)
  | vnone
  | vlist (items : List PyVal)
  | vdict (entries : List (String × PyVal))

/-- Python `value == "..."` on a loosely-typed value: true exactly for the
equal string (used for the metadata `Name` comparisons). -/
def pyEqStr : PyVal → String → Bool
  | .vstr s, t => s == t
  | _, _ => false

/-- Python `value == 0` as met in the source (`result_code == 0`): true
exactly for the integer `0` (string `"0"` is not equal to `0` in Python). -/
def pyEqZero : PyVal → Bool
  | .vint n => n == 0
  | _ => false

/-- `d[k]` on a (possibly non-dict) value: `KeyError` when the key is
missing, `TypeError` when the value does not support string subscripting. -/
def dictGet (v : PyVal) (k : String) : Except PyErr PyVal :=
  match v with
  | .vdict es =>
    match es.lookup k with
    | some x => .ok x
    | none => .error (.keyError k)
  | .vstr _ => .error (.typeError "string indices must be integers")
  | _ => .error (.typeError "object is not subscriptable")

/-- `d.get(k, default)`: only dicts have `.get`; anything else raises
`AttributeError`. -/
def dictGetD (v : PyVal) (k : String) (dflt : PyVal) : Except PyErr PyVal :=
  match v with
  | .vdict es => .ok ((es.lookup k).getD dflt)
  | _ => .error (.attributeError "object has no attribute get")

/-- `k in d` membership test (the source only reaches it on values already
subscripted as dicts). -/
def dictHas (v : PyVal) (k : String) : Bool :=
  match v with
  | .vdict es => (es.lookup k).isSome
  | _ => false

/-- `str(value)` (container reprs coarsened; no claim inspects them). -/
def pyStr : PyVal → String
  | .vstr s => s
  | .vint n => toString n
  | .vnone => "None"
  | .vlist _ => "<list>"
  | .vdict _ => "<dict>"

/-- Is a trimmed string accepted by Python's `float()`?  Models plain
decimal literals: optional sign, digits with at most one dot (scientific
notation and `inf`/`nan` are not modelled; no claim depends on which
strings coerce). -/
def isFloatLiteral (s : String) : Bool :=
  let cs := s.trim.toList
  let body := match cs with
    | '+' :: rest => rest
    | '-' :: rest => rest
    | rest => rest
  let w := body.takeWhile (fun c => c ≠ '.')
  match body.dropWhile (fun c => c ≠ '.') with
  | [] => !w.isEmpty && w.all Char.isDigit
  | _ :: f =>
    (!w.isEmpty || !f.isEmpty) && w.all Char.isDigit && f.all Char.isDigit

/-- `float(value)`: succeeds on ints and numeric strings (the numeric value
itself is irrelevant to every claim, so the coerced value is returned
unchanged); raises `ValueError` on non-numeric strings and `TypeError` on
`None` / containers. -/
def pyFloat (v : PyVal) : Except PyErr PyVal :=
  match v with
  | .vint _ => .ok v
  | .vstr s =>
    if isFloatLiteral s then .ok v
    else .error (.valueError (String.append
      "could not convert string to float: " s))
  | _ => .error (.typeError "float() argument must be a string or a number")

/-- The `ERROR_MESSAGES` code→message table. -/
def ERROR_MESSAGES : List (Int × String) :=
  [(0, "Success"),
   (1, "Insufficient funds in M-Pesa account"),
   (17, "User cancelled the transaction"),
   (26, "System internal error"),
   (1001, "Unable to lock subscriber, a transaction is already in process"),
   (1019, "Transaction expired. No response from user"),
   (1032, "Request cancelled by user"),
   (1037, "Timeout in sending PIN request"),
   (2001, "Wrong PIN entered"),
   (9999, "Request cancelled by user")]

/-- `get_error_message(result_code)`: table lookup with the
`f"Transaction failed with code: {result_code}"` fallback (only an int
result code can hit the table). -/
def get_error_message (resultCode : PyVal) : String :=
  match resultCode with
  | .vint n =>
    match ERROR_MESSAGES.lookup n with
    | some m => m
    | none => String.append "Transaction failed with code: " (pyStr resultCode)
  | _ => String.append "Transaction failed with code: " (pyStr resultCode)

/-- Python slice `s[a:b]` (total: clamps out-of-range bounds). -/
def pySlice (s : String) (a b : Nat) : String :=
  ((s.toList.drop a).take (b - a)).asString

/-- `format_transaction_date(date_str)`: slice a `YYYYMMDDHHMMSS` string
into ISO form. -/
def format_transaction_date (dateStr : String) : String :=
  let year := pySlice dateStr 0 4
  let month := pySlice dateStr 4 6
  let day := pySlice dateStr 6 8
  let hours := pySlice dateStr 8 10
  let minutes := pySlice dateStr 10 12
  let seconds := pySlice dateStr 12 14
  String.intercalate "" [year, "-", month, "-", day, "T", hours, ":",
    minutes, ":", seconds]

/-- `ParsedCallbackData`: loosely-typed fields keep their `PyVal` (Python
stores whatever the payload carried). -/
structure ParsedCallbackData where
  merchant_request_id : PyVal
  checkout_request_id : PyVal
  result_code : PyVal
  result_description : PyVal
  amount : Option PyVal := none
  mpesa_receipt_number : Option String := none
  transaction_date : Option String := none
  phone_number : Option String := none
  is_success : Bool := false
  error_message : Option String := none

/-- One `{Name, Value}` step of the `_extract_metadata` loop. -/
def extractItem (parsed : ParsedCallbackData) (item : PyVal) :
    Except PyErr ParsedCallbackData := do
  let name ← dictGetD item "Name" .vnone
  let value ← dictGetD item "Value" .vnone
  if pyEqStr name "Amount" then
    let f ← pyFloat value
    pure { parsed with amount := some f }
  else if pyEqStr name "MpesaReceiptNumber" then
    pure { parsed with mpesa_receipt_number := some (pyStr value) }
  else if pyEqStr name "TransactionDate" then
    pure { parsed with
      transaction_date := some (format_transaction_date (pyStr value)) }
  else if pyEqStr name "PhoneNumber" then
    pure { parsed with phone_number := some (pyStr value) }
  else
    pure parsed

/-- Fold `extractItem` over the `Item` list. -/
def extractItems (parsed : ParsedCallbackData) :
    List PyVal → Except PyErr ParsedCallbackData
  | [] => .ok parsed
  | item :: rest => do
    let parsed' ← extractItem parsed item
    extractItems parsed' rest

/-- `_extract_metadata(metadata, parsed)`: iterate
`metadata.get("Item", [])`, projecting known names into the typed record
(`for` over a non-list raises `TypeError`; string iteration is not
modelled — no claim feeds a string there). -/
def _extract_metadata (metadata : PyVal) (parsed : ParsedCallbackData) :
    Except PyErr ParsedCallbackData := do
  let items ← dictGetD metadata "Item" (.vlist [])
  match items with
  | .vlist l => extractItems parsed l
  | _ => .error (.typeError "object is not iterable")

/-- `parse_callback(callback)`: index `Body` / `stkCallback`, read the
result fields (in the source's evaluation order), derive
`is_success = (result_code == 0)` and the error message, then extract
metadata when successful and present. -/
def parse_callback (callback : PyVal) : Except PyErr ParsedCallbackData := do
  let body ← dictGet callback "Body"
  let stk ← dictGet body "stkCallback"
  let resultCode ← dictGet stk "ResultCode"
  let mrid ← dictGet stk "MerchantRequestID"
  let crid ← dictGet stk "CheckoutRequestID"
  let rdesc ← dictGet stk "ResultDesc"
  let parsed : ParsedCallbackData :=
    { merchant_request_id := mrid
      checkout_request_id := crid
      result_code := resultCode
      result_description := rdesc
      is_success := pyEqZero resultCode
      error_message := if pyEqZero resultCode then none
        else some (get_error_message resultCode) }
  if pyEqZero resultCode && dictHas stk "CallbackMetadata" then
    let metadata ← dictGet stk "CallbackMetadata"
    _extract_metadata metadata parsed
  else
    pure parsed

/-- The hardcoded `SAFARICOM_IPS` allow-list. -/
def SAFARICOM_IPS : List String :=
  ["196.201.214.200", "196.201.214.206", "196.201.213.114",
   "196.201.214.207", "196.201.214.208", "196.201.213.44",
   "196.201.212.127", "196.201.212.138", "196.201.212.129",
   "196.201.212.136", "196.201.212.74", "196.201.212.69"]

/-- `self.allowed_ips = allowed_ips or self.SAFARICOM_IPS` in
`MpesaCallbackHandler.__init__`: Python `or` falls back on any falsy value,
so both `None` and the empty list resolve to the default Safaricom list. -/
def resolveAllowedIps (allowedIps : Option (List String)) : List String :=
  match allowedIps with
  | none => SAFARICOM_IPS
  | some l => if l.isEmpty then SAFARICOM_IPS else l

/-- Which STK handler slot an invocation went to. -/
inductive HandlerTag where
  | generic
  | success
  | failure
  deriving DecidableEq, Repr

/-- An `MpesaCallbackHandler` as configured after `__init__`: the three STK
handler slots (caller-supplied, possibly raising; `None` when
unregistered), the trust-boundary state, and the optional duplicate
predicate.  Handlers for the non-STK operations are irrelevant to the STK
path and omitted. -/
structure HandlerCfg where
  on_callback : Option (ParsedCallbackData → Except PyErr Unit) := none
  on_success : Option (ParsedCallbackData → Except PyErr Unit) := none
  on_failure : Option (ParsedCallbackData → Except PyErr Unit) := none
  validateIp : Bool := true
  allowedIps : List String := SAFARICOM_IPS
  is_duplicate : Option (PyVal → Except PyErr Bool) := none

/-- `validate_callback_ip(ip_address)`: trust everything when validation is
disabled, else membership in the allow-list. -/
def validate_callback_ip (cfg : HandlerCfg) (ipAddress : String) : Bool :=
  if !cfg.validateIp then true
  else cfg.allowedIps.contains ipAddress

/-- The observable outcome of one `handle_callback` run: the value or
exception, whether `parse_callback` was reached, and the handler slots
invoked, in order. -/
structure CBTrace where
  result : Except PyErr Unit
  parseReached : Bool
  dispatched : List HandlerTag

/-- The success/failure-specific dispatch at the end of `handle_callback`:
exactly one of `on_success` / `on_failure` fires, selected by
`parsed.is_success`, when registered. -/
def dispatchOutcome (cfg : HandlerCfg) (parsed : ParsedCallbackData) :
    CBTrace :=
  if parsed.is_success then
    match cfg.on_success with
    | some h =>
      match h parsed with
      | .ok _ => ⟨.ok (), true, [.success]⟩
      | .error e => ⟨.error e, true, [.success]⟩
    | none => ⟨.ok (), true, []⟩
  else
    match cfg.on_failure with
    | some h =>
      match h parsed with
      | .ok _ => ⟨.ok (), true, [.failure]⟩
      | .error e => ⟨.error e, true, [.failure]⟩
    | none => ⟨.ok (), true, []⟩

/-- The dispatch phase of `handle_callback`: the generic `on_callback`
handler first (when registered; an exception from it propagates and stops
dispatch), then the success/failure-specific handler. -/
def dispatchPhase (cfg : HandlerCfg) (parsed : ParsedCallbackData) : CBTrace :=
  match cfg.on_callback with
  | some h =>
    match h parsed with
    | .error e => ⟨.error e, true, [.generic]⟩
    | .ok _ =>
      let rest := dispatchOutcome cfg parsed
      ⟨rest.result, true, .generic :: rest.dispatched⟩
  | none => dispatchOutcome cfg parsed

/-- `handle_callback` after the trust gate: parse, consult the duplicate
predicate on `parsed.checkout_request_id` (an early `return` on a reported
duplicate — success, nothing dispatched), then dispatch. -/
def processCallback (cfg : HandlerCfg) (callback : PyVal) : CBTrace :=
  match parse_callback callback with
  | .error e => ⟨.error e, true, []⟩
  | .ok parsed =>
    match cfg.is_duplicate with
    | some dup =>
      match dup parsed.checkout_request_id with
      | .error e => ⟨.error e, true, []⟩
      | .ok true => ⟨.ok (), true, []⟩
      | .ok false => dispatchPhase cfg parsed
    | none => dispatchPhase cfg parsed

/-- The trust gate `if ip_address and not self.validate_callback_ip(...)`:
only a *truthy* (supplied and nonempty) address that fails validation
rejects. -/
def ipRejected (cfg : HandlerCfg) (ipAddress : Option String) : Bool :=
  match ipAddress with
  | none => false
  | some a => if a = "" then false else !validate_callback_ip cfg a

/-- `MpesaCallbackHandler.handle_callback(callback, ip_address)`: the trust
gate (raising `ValueError` on an untrusted supplied address, before any
parsing), then parse / duplicate-check / dispatch. -/
def handle_callback (cfg : HandlerCfg) (callback : PyVal)
    (ipAddress : Option String) : CBTrace :=
  if ipRejected cfg ipAddress then
    ⟨.error (.valueError (String.append "Invalid callback IP: "
      (ipAddress.getD ""))), false, []⟩
  else
    processCallback cfg callback

/-- The fixed two-field acknowledgment `{ResultCode, ResultDesc}`. -/
structure CallbackResponse where
  resultCode : Int
  resultDesc : String
  deriving DecidableEq, Repr

/-- `create_callback_response(success, message)`. -/
def create_callback_response (success : Bool) (message : Option String) :
    CallbackResponse :=
  ⟨if success then 0 else 1,
   message.getD (if success then "Accepted" else "Rejected")⟩

/-- `MpesaClient.handleStkCallback(callback, ipAddress)`: run
`handle_callback` under a `try`, acknowledging `{0, "Accepted"}` on
success and `{1, "Internal Error"}` when any exception was raised. -/
def handleStkCallback (cfg : HandlerCfg) (callback : PyVal)
    (ipAddress : Option String) : CallbackResponse :=
  match (handle_callback cfg callback ipAddress).result with
  | .ok _ => create_callback_response true none
  | .error _ => create_callback_response false (some "Internal Error")

/-- Is a raised error an `MpesaAuthError`? -/
def isAuthError : PyErr → Bool
  | .mpesa e => e.kind = .auth
  | _ => false

/-! ## Concrete fixtures and auxiliary observation functions -/

/-- A handler that succeeds without effect. -/
def okHandler : ParsedCallbackData → Except PyErr Unit := fun _ => .ok ()

/-- A duplicate predicate that reports every key as already seen. -/
def dupAlways : PyVal → Except PyErr Bool := fun _ => .ok true

/-- A well-formed successful STK callback payload (no metadata). -/
def cbWellFormed : PyVal :=
  .vdict [("Body", .vdict [("stkCallback", .vdict
    [("ResultCode", .vint 0),
     ("MerchantRequestID", .vstr "m-1"),
     ("CheckoutRequestID", .vstr "ws_CO_1"),
     ("ResultDesc", .vstr "The service request is processed successfully.")])])]

/-- The parse of `cbWellFormed`. -/
def parsedWellFormed : ParsedCallbackData :=
  { merchant_request_id := .vstr "m-1"
    checkout_request_id := .vstr "ws_CO_1"
    result_code := .vint 0
    result_description := .vstr "The service request is processed successfully."
    is_success := true
    error_message := none }

/-- A handler configuration with all three STK handlers registered and the
always-duplicate predicate installed. -/
def cfgDup : HandlerCfg :=
  { on_callback := some okHandler
    on_success := some okHandler
    on_failure := some okHandler
    validateIp := true
    allowedIps := SAFARICOM_IPS
    is_duplicate := some dupAlways }

/-- A handler configuration with IP validation on and a one-address
allow-list. -/
def cfgStrictIp : HandlerCfg :=
  { on_callback := some okHandler
    on_success := some okHandler
    on_failure := some okHandler
    validateIp := true
    allowedIps := ["196.201.214.200"]
    is_duplicate := none }

/-- A handler configuration built, as `__init__` does, from an *empty*
caller-supplied allow-list (which Python's `or` replaces with
`SAFARICOM_IPS`). -/
def cfgEmptyAllowList : HandlerCfg :=
  { on_callback := none
    on_success := none
    on_failure := none
    validateIp := true
    allowedIps := resolveAllowedIps (some [])
    is_duplicate := none }

/-- Zero jitter draws. -/
def zeroJit : Nat → Int := fun _ => 0

/-- An operation that fails every attempt with
`MpesaTimeoutError("Request timed out")`. -/
def fnTimeout : Nat → Except PyErr Unit :=
  fun _ => .error (.mpesa (mpesaTimeoutError "Request timed out"))

/-- Caller options `{"maxRetries": 0}`. -/
def optsNoRetry : Option PartialRetryOptions := some { maxRetries := some 0 }

/-- Limiter options: 1 request per 60 s window. -/
def rloptsW : RLOptions := ⟨1, 60000, "mpesa"⟩

/-- A store whose window for `stk:key` is exhausted (count 1 of 1, window
resets at t = 60000). -/
def stExhausted : RLStore :=
  setRL emptyRLStore (fullKey rloptsW "stk:key") ⟨1, 60000⟩

/-- The rejection `checkLimit stExhausted rloptsW "stk:key" 0` raises. -/
def eRejectW : MErr :=
  mpesaRateLimitError "Rate limit exceeded. Try again in 60 seconds."
    (some 60) (some ⟨1, 60000, some 60000⟩)

/-- A `checkLimit`-outcome sequence that rejects with `eRejectW` on every
invocation. -/
def checkSeqReject : Nat → Except MErr Unit := fun _ => .error eRejectW

/-- A network that would succeed if reached. -/
def netOk : Nat → Except PyErr Unit := fun _ => .ok ()

/-- Limiter options with a degenerate zero-length window, for which the
Redis limiter's retry-after fallback `(windowMs + 999) // 1000` is 0. -/
def rloptsZ : RLOptions := ⟨1, 0, "mpesa"⟩

/-- A Redis store whose counter for `mpesa:k` is live at 1 with no expiry
attached, so the next `incr` reaches 2 and the call is rejected. -/
def rstLiveNoExp : RedisStore :=
  setRedis emptyRedisStore (fullKey rloptsZ "k") ⟨1, none⟩

/-- The rejection `redisCheckLimit rstLiveNoExp rloptsZ "k" 0` raises: its
`retry_after` is 0 (the `...:ttl` companion key is never written, so the
zero-window fallback applies), which is *falsy* in Python. -/
def eZeroRA : MErr :=
  mpesaRateLimitError "Rate limit exceeded. Try again in 0 seconds."
    (some 0) (some ⟨1, 0, none⟩)

/-- A `checkLimit`-outcome sequence that rejects with the falsy-retry-after
Redis rejection `eZeroRA` on every invocation. -/
def checkSeqZ : Nat → Except MErr Unit := fun _ => .error eZeroRA

/-- The admit (`true`)/reject decision of one local `checkLimit` call
together with the post-call store (unchanged on a rejection). -/
def localDecide (st : RLStore) (opts : RLOptions) (key : String) (now : Int) :
    Bool × RLStore :=
  match checkLimit st opts key now with
  | .ok st' => (true, st')
  | .error _ => (false, st)

/-- The admit/reject decision of one Redis `checkLimit` call together with
the post-call store (the `incr` persists across a rejection). -/
def redisDecide (st : RedisStore) (opts : RLOptions) (key : String)
    (now : Int) : Bool × RedisStore :=
  match redisCheckLimit st opts key now with
  | (.ok _, st') => (true, st')
  | (.error _, st') => (false, st')

/-- The simulation relation between the local and the Redis limiter state
for one full key: both absent, or the Redis counter is `v ≥ 1` with expiry
at `r` while the local window holds `count = min v maxRequests` with
`resetAt = r` (the local counter saturates at `maxRequests` because a
rejection does not increment, while `incr` always does). -/
def C4Inv (maxRequests : Int) (fk : String) (lst : RLStore)
    (rst : RedisStore) : Prop :=
  (lst fk = none ∧ rst fk = none) ∨
  (∃ v r, 1 ≤ v ∧ lst fk = some ⟨min v maxRequests, r⟩ ∧
    rst fk = some ⟨v, some r⟩)

/-- Limiter options whose window (1500 ms) is not a whole number of
seconds. -/
def optsFractionalWindow : RLOptions := ⟨1, 1500, "mpesa"⟩

/-- Limiter options with `maxRequests = 0`. -/
def optsZeroMax : RLOptions := ⟨0, 1000, "mpesa"⟩

/-! ## Theorems -/

/-- C6: for every handler configuration, inbound STK payload and source
address, whatever exception is raised internally while parsing,
duplicate-checking or dispatching, `handleStkCallback` never propagates
it: it always returns the fixed two-field acknowledgment, with
`ResultCode = 0` (desc `"Accepted"`) when `handle_callback` succeeded and
`ResultCode = 1` (desc `"Internal Error"`) when it raised; in particular
the result code is always 0 or 1. -/
theorem C6_ack_never_propagates (cfg : HandlerCfg) (cb : PyVal)
    (ip : Option String) :
    handleStkCallback cfg cb ip =
      (match (handle_callback cfg cb ip).result with
        | .ok _ => ⟨0, "Accepted"⟩
        | .error _ => ⟨1, "Internal Error"⟩) ∧
    ((handleStkCallback cfg cb ip).resultCode = 0 ∨
      (handleStkCallback cfg cb ip).resultCode = 1) := by
  unfold handleStkCallback create_callback_response
  cases (handle_callback cfg cb ip).result <;> simp

/-- C5: for every STK callback that parses, if the caller-supplied
duplicate predicate reports its checkout-request id as already seen, the
handling path (with the trust gate passing) invokes zero registered
handlers — the dispatch trace is empty — and still acknowledges with
`{ResultCode: 0, ResultDesc: "Accepted"}`. -/
theorem C5_duplicate_zero_dispatch (cfg : HandlerCfg) (cb : PyVal)
    (ip : Option String) (parsed : ParsedCallbackData)
    (dup : PyVal → Except PyErr Bool)
    (hdup : cfg.is_duplicate = some dup)
    (hparse : parse_callback cb = .ok parsed)
    (hseen : dup parsed.checkout_request_id = .ok true)
    (hip : ipRejected cfg ip = false) :
    (handle_callback cfg cb ip).dispatched = [] ∧
    (handle_callback cfg cb ip).result = .ok () ∧
    handleStkCallback cfg cb ip = ⟨0, "Accepted"⟩ := by
  unfold handleStkCallback handle_callback processCallback
  simp [hip, hparse, hdup, hseen, create_callback_response]

/-- Witness for C5 at a concrete input: all three handlers registered, a
well-formed payload, an always-true duplicate predicate, no source
address. -/
theorem C5_witness :
    (handle_callback cfgDup cbWellFormed none).dispatched = [] ∧
    handleStkCallback cfgDup cbWellFormed none = ⟨0, "Accepted"⟩ := by
  have h := C5_duplicate_zero_dispatch cfgDup cbWellFormed none
    parsedWellFormed dupAlways rfl rfl rfl rfl
  exact ⟨h.1, h.2.2⟩

/-- C10: when `handle_callback` is invoked with `ip_address = None`, the
trust gate is skipped entirely — for *every* configuration, including
`validate_ip = true` with a configured allow-list — and the callback runs
the same parse / duplicate-check / dispatch pipeline (`processCallback`)
that a validated (trusted) source address runs. -/
theorem C10_none_ip_skips_trust_check (cfg : HandlerCfg) (cb : PyVal) :
    handle_callback cfg cb none = processCallback cfg cb ∧
    (∀ a : String, validate_callback_ip cfg a = true →
      handle_callback cfg cb (some a) = processCallback cfg cb) := by
  constructor
  · unfold handle_callback ipRejected
    simp
  · intro a hv
    unfold handle_callback ipRejected
    rcases eq_or_ne a "" with h | h <;> simp [h, hv]

/-- Witness for C10 at a concrete input: a strict config (validation on,
allow-list configured), the well-formed payload, and a trusted address. -/
theorem C10_witness :
    handle_callback cfgStrictIp cbWellFormed none =
      processCallback cfgStrictIp cbWellFormed ∧
    handle_callback cfgStrictIp cbWellFormed (some "196.201.214.200") =
      processCallback cfgStrictIp cbWellFormed := by
  have h := C10_none_ip_skips_trust_check cfgStrictIp cbWellFormed
  exact ⟨h.1, h.2 "196.201.214.200" (by decide)⟩

/-- C8 (amended): with IP validation enabled, a *nonempty* supplied source
address outside the allow-list is rejected before any parsing
(`parseReached = false`) with no handler dispatched — but the rejection is
a generic `ValueError`, not an `MpesaAuthError`, and `handleStkCallback`
surfaces it as the `{1, "Internal Error"}` acknowledgment; moreover an
*empty* supplied address bypasses the trust gate entirely (Python
truthiness), so that case proceeds to parsing. -/
theorem C8_untrusted_ip_rejected_before_parse (cfg : HandlerCfg) (cb : PyVal)
    (a : String) (hv : cfg.validateIp = true) (ha : a ≠ "")
    (hmem : cfg.allowedIps.contains a = false) :
    handle_callback cfg cb (some a) =
      ⟨.error (.valueError (String.append "Invalid callback IP: " a)),
        false, []⟩ ∧
    isAuthError (.valueError (String.append "Invalid callback IP: " a))
      = false ∧
    handleStkCallback cfg cb (some a) = ⟨1, "Internal Error"⟩ ∧
    handle_callback cfg cb (some "") = processCallback cfg cb := by
  have hrej : ipRejected cfg (some a) = true := by
    unfold ipRejected validate_callback_ip
    simp [ha, hv]
    simpa using hmem
  refine ⟨?_, rfl, ?_, ?_⟩
  · unfold handle_callback
    simp [hrej]
  · unfold handleStkCallback handle_callback
    simp [hrej, create_callback_response]
  · unfold handle_callback ipRejected
    simp

/-- Witness for C8 (amended) at a concrete input: the strict config and the
untrusted address `9.9.9.9`. -/
theorem C8_witness :
    handle_callback cfgStrictIp cbWellFormed (some "9.9.9.9") =
      ⟨.error (.valueError "Invalid callback IP: 9.9.9.9"), false, []⟩ ∧
    handleStkCallback cfgStrictIp cbWellFormed (some "9.9.9.9") =
      ⟨1, "Internal Error"⟩ := by
  have h := C8_untrusted_ip_rejected_before_parse cfgStrictIp cbWellFormed
    "9.9.9.9" rfl (by decide) (by decide)
  exact ⟨h.1, h.2.2.1⟩

/-- Counterexample to C8 as stated: the untrusted-source rejection raised
by `handle_callback` is a `ValueError`, not an authorization error —
`isAuthError` is false on the raised exception. -/
theorem C8_counterexample :
    (handle_callback cfgStrictIp cbWellFormed (some "9.9.9.9")).result =
      .error (.valueError "Invalid callback IP: 9.9.9.9") ∧
    (handle_callback cfgStrictIp cbWellFormed (some "9.9.9.9")).parseReached
      = false ∧
    isAuthError (.valueError "Invalid callback IP: 9.9.9.9") = false := by
  refine ⟨?_, ?_, rfl⟩ <;> rfl

/-- C9 (amended): with IP validation disabled, `validate_callback_ip`
trusts every source address; but a handler *constructed with an empty
allow-list* does not trust every address — Python's
`allowed_ips or SAFARICOM_IPS` replaces the empty list with the default
Safaricom list, so with validation enabled exactly the Safaricom addresses
are trusted. -/
theorem C9_empty_allowlist_falls_back (cfg : HandlerCfg) (a : String) :
    (cfg.validateIp = false → validate_callback_ip cfg a = true) ∧
    resolveAllowedIps (some []) = SAFARICOM_IPS ∧
    validate_callback_ip cfgEmptyAllowList a = SAFARICOM_IPS.contains a := by
  refine ⟨?_, rfl, ?_⟩
  · intro h
    unfold validate_callback_ip
    simp [h]
  · unfold validate_callback_ip cfgEmptyAllowList
    rfl

/-- Witness for C9 (amended) at a concrete input: validation disabled
trusts `10.0.0.1`. -/
theorem C9_witness :
    validate_callback_ip { cfgStrictIp with validateIp := false } "10.0.0.1"
      = true ∧
    validate_callback_ip cfgEmptyAllowList "10.0.0.1"
      = SAFARICOM_IPS.contains "10.0.0.1" := by
  have h := C9_empty_allowlist_falls_back
    { cfgStrictIp with validateIp := false } "10.0.0.1"
  have h' := C9_empty_allowlist_falls_back cfgEmptyAllowList "10.0.0.1"
  exact ⟨h.1 rfl, h'.2.2⟩

/-- Counterexample to C9 as stated: a handler constructed with an empty
allow-list (validation enabled) does *not* trust every source —
`validate_callback_ip` rejects `10.0.0.1`. -/
theorem C9_counterexample :
    validate_callback_ip cfgEmptyAllowList "10.0.0.1" = false := by
  decide

/-- C7: the claim says an error carrying a status code is retryable iff the
code is in `retryableConditions` (default `{408, 429, 500, 502, 503, 504}`).
The default set is as stated, and 408 is in it — but the classifier never
consults it: for any `MpesaError` carrying a truthy status code that is not
a network/rate-limit instance (here `MpesaTimeoutError`, status 408), the
source evaluates `error["status_code"]` on the exception object, so
`isRetryableError` raises `TypeError` instead of returning `True`. -/
theorem C7_classifier_crashes_on_status_code :
    DEFAULT_RETRY_OPTIONS.retryableStatusCodes
      = [408, 429, 500, 502, 503, 504] ∧
    (408 ∈ DEFAULT_RETRY_OPTIONS.retryableStatusCodes) ∧
    isRetryableError (.mpesa (mpesaTimeoutError "Request timed out"))
        DEFAULT_RETRY_OPTIONS.retryableStatusCodes
      = .error (.typeError "'MpesaTimeoutError' object is not subscriptable")
      := by
  refine ⟨rfl, by decide, rfl⟩

/-- C2: the claim says that when the failing attempt's index equals
`maxRetries` the original error propagates unchanged.  With
`maxRetries = 0` and an operation that always raises
`MpesaTimeoutError("Request timed out")`, the code performs exactly one
invocation and no sleep, but the error that propagates is the `TypeError`
raised by `error["status_code"]` inside `isRetryableError` — not the
original timeout error. -/
theorem C2_original_error_not_preserved :
    (retryWithBackoff fnTimeout optsNoRetry zeroJit).invoked = [0] ∧
    (retryWithBackoff fnTimeout optsNoRetry zeroJit).sleeps = [] ∧
    (retryWithBackoff fnTimeout optsNoRetry zeroJit).result
      = .error (.typeError "'MpesaTimeoutError' object is not subscriptable")
      ∧
    (retryWithBackoff fnTimeout optsNoRetry zeroJit).result
      ≠ .error (.mpesa (mpesaTimeoutError "Request timed out")) := by
  refine ⟨rfl, rfl, rfl, ?_⟩
  have h3 : (retryWithBackoff fnTimeout optsNoRetry zeroJit).result
      = .error (.typeError "'MpesaTimeoutError' object is not subscriptable")
    := rfl
  rw [h3]
  simp [mpesaTimeoutError]

/-- A local `checkLimit` rejection always raises an `MpesaRateLimitError`
whose `retry_after` is present and positive (the window is active, so
`resetAt - now ≥ 1` and the ceiling division yields at least 1). -/
theorem checkLimit_reject_shape (st : RLStore) (opts : RLOptions)
    (key : String) (now : Int) (e : MErr)
    (h : checkLimit st opts key now = .error e) :
    e.kind = .rateLimit ∧ truthyInt e.retryAfter = true := by
  simp only [checkLimit] at h
  split at h
  · exact Except.noConfusion h
  next entry _ =>
    split at h
    · exact Except.noConfusion h
    next hexp =>
      split at h
      next hcnt =>
        injection h with h'
        subst h'
        refine ⟨rfl, ?_⟩
        have hpos : 1 ≤ (entry.resetAt - now + 999).fdiv 1000 := by
          rw [Int.fdiv_eq_ediv _ (by norm_num)]
          omega
        simp only [mpesaRateLimitError, truthyInt, bne_iff_ne, ne_eq]
        omega
      next hcnt =>
        exact Except.noConfusion h

/-- A `RedisRateLimiter.checkLimit` rejection always raises an
`MpesaRateLimitError` whose `retry_after` attribute is present (it may be
0, since the `...:ttl` companion key is never written and the fallback
`(windowMs + 999) // 1000` can be 0 for a degenerate window). -/
theorem redisCheckLimit_reject_shape (rst : RedisStore) (opts : RLOptions)
    (key : String) (now : Int) (e : MErr)
    (h : (redisCheckLimit rst opts key now).1 = .error e) :
    e.kind = .rateLimit ∧ ∃ ra, e.retryAfter = some ra := by
  rcases hred : redisCheckLimit rst opts key now with ⟨res, st2⟩
  rw [hred] at h
  have hres : res = Except.error e := h
  subst hres
  simp only [redisCheckLimit] at hred
  split at hred
  · injection hred with h1 h2
    injection h1 with h3
    subst h3
    exact ⟨rfl, ⟨_, rfl⟩⟩
  · injection hred with h1 h2
    exact Except.noConfusion h1

/-- Filtering by `isOk` over outcomes that all reject yields nothing. -/
theorem filter_isOk_nil {β : Type} (p : Nat → Except MErr β)
    (hp : ∀ i, (p i).isOk = false) :
    ∀ l : List Nat, List.filter (fun i => (p i).isOk) l = [] := by
  intro l
  induction l with
  | nil => rfl
  | cons a l ih => simp [List.filter_cons, hp a, ih]

/-- The retry loop over an operation that fails every invocation with a
rate-limit error whose `retry_after` is falsy: the error is classified
retryable and `calculateDelay` takes the normal backoff branch (no
`TypeError`), so the loop re-invokes the operation on every iteration,
sleeping between attempts, and finally re-raises the original error: with
`fuel` iterations left it performs `fuel` invocations and `fuel - 1`
sleeps. -/
theorem retryLoop_all_reject {α : Type} (opts : RetryOptions)
    (jit : Nat → Int) (fn : Nat → Except PyErr α) (e : MErr)
    (hkind : e.kind = .rateLimit) (hfalsy : truthyInt e.retryAfter = false)
    (hfn : ∀ i, fn i = .error (.mpesa e)) :
    ∀ (fuel attempt : Nat) (lastE : Option PyErr),
      attempt + fuel = opts.maxRetries + 1 → 1 ≤ fuel →
      (retryLoop fn opts jit fuel attempt lastE).result
        = .error (.mpesa e) ∧
      (retryLoop fn opts jit fuel attempt lastE).invoked.length = fuel ∧
      (retryLoop fn opts jit fuel attempt lastE).sleeps.length = fuel - 1
    := by
  intro fuel
  induction fuel with
  | zero =>
    intro attempt lastE hsum hge
    exact absurd hge (by omega)
  | succ f ih =>
    intro attempt lastE hsum _
    have hcls : isRetryableError (.mpesa e) opts.retryableStatusCodes
        = .ok true := by
      simp [isRetryableError, hkind]
    by_cases hlast : attempt = opts.maxRetries
    · have hf0 : f = 0 := by omega
      subst hf0
      simp only [retryLoop, hfn attempt, hcls, not_true, false_or]
      rw [if_pos hlast]
      exact ⟨rfl, rfl, rfl⟩
    · have hdel : calculateDelay attempt opts (some (.mpesa e)) (jit attempt)
          = .ok (min (opts.initialDelayMs * opts.backoffMultiplier ^ attempt)
              opts.maxDelayMs + jit attempt) := by
        simp [calculateDelay, hfalsy]
      obtain ⟨ihr, ihi, ihs⟩ := ih (attempt + 1) (some (.mpesa e))
        (by omega) (by omega)
      simp only [retryLoop, hfn attempt, hcls, not_true, false_or]
      rw [if_neg hlast]
      simp only [hdel]
      refine ⟨ihr, ?_, ?_⟩
      · simp only [List.length_cons, ihi]
      · simp only [List.length_cons, ihs]
        omega

/-- C1 (amended): for *either* configured limiter (local or Redis), when
`checkLimit` rejects every invocation of `makeRequest`’s wrapped request,
the rejection short-circuits before any network attempt: zero invocations
reach the network.  But the rejection does not simply propagate — the
classifier marks it retryable, and what happens next depends on the
rejection’s `retry_after`: if it is truthy (always for the local limiter,
and for the Redis limiter whenever its second-granularity retry-after is
nonzero), `calculateDelay` evaluates `error["retry_after"]` and the
resulting `TypeError` propagates after a single invocation with no sleep
(the rejection itself propagates only when `maxRetries = 0`); if it is
falsy (possible only for a Redis rejection, via the zero-window fallback of
its never-written `:ttl` key), the Retry Engine *does* retry it —
`maxRetries + 1` invocations with `maxRetries` backoff sleeps — before
re-raising the rejection. -/
theorem C1_limiter_reject_behavior {α : Type}
    (lst : RLStore) (rst : RedisStore) (rlopts : RLOptions) (key : String)
    (now : Int) (e : MErr)
    (checkSeq : Nat → Except MErr Unit) (netSeq : Nat → Except PyErr α)
    (ropts : Option PartialRetryOptions) (jit : Nat → Int)
    (hsrc : checkLimit lst rlopts key now = .error e ∨
      (redisCheckLimit rst rlopts key now).1 = .error e)
    (hseq : ∀ i, checkSeq i = .error e) :
    networkAttempts (makeRequest checkSeq netSeq ropts jit) checkSeq = 0 ∧
    (truthyInt e.retryAfter = true →
      (makeRequest checkSeq netSeq ropts jit).invoked = [0] ∧
      (makeRequest checkSeq netSeq ropts jit).sleeps = [] ∧
      ((mergeRetryOptions ropts).maxRetries = 0 →
        (makeRequest checkSeq netSeq ropts jit).result
          = .error (.mpesa e)) ∧
      ((mergeRetryOptions ropts).maxRetries ≠ 0 →
        (makeRequest checkSeq netSeq ropts jit).result
          = .error (subscriptTypeError e))) ∧
    (truthyInt e.retryAfter = false →
      (makeRequest checkSeq netSeq ropts jit).invoked.length
        = (mergeRetryOptions ropts).maxRetries + 1 ∧
      (makeRequest checkSeq netSeq ropts jit).sleeps.length
        = (mergeRetryOptions ropts).maxRetries ∧
      (makeRequest checkSeq netSeq ropts jit).result
        = .error (.mpesa e)) := by
  have hkind : e.kind = .rateLimit := by
    rcases hsrc with hloc | hred
    · exact (checkLimit_reject_shape lst rlopts key now e hloc).1
    · exact (redisCheckLimit_reject_shape rst rlopts key now e hred).1
  have hfn : ∀ i, makeRequestFn checkSeq netSeq i
      = (.error (.mpesa e) : Except PyErr α) := by
    intro i
    unfold makeRequestFn
    rw [hseq i]
  have hcls : isRetryableError (.mpesa e)
      (mergeRetryOptions ropts).retryableStatusCodes = .ok true := by
    simp [isRetryableError, hkind]
  have hok : ∀ i, (checkSeq i).isOk = false := by
    intro i
    rw [hseq i]
    rfl
  refine ⟨?_, ?_, ?_⟩
  · unfold networkAttempts
    rw [filter_isOk_nil checkSeq hok]
    rfl
  · intro htr
    have hdel : calculateDelay 0 (mergeRetryOptions ropts)
        (some (.mpesa e)) (jit 0) = .error (subscriptTypeError e) := by
      simp [calculateDelay, hkind, htr]
    have hrun : makeRequest checkSeq netSeq ropts jit =
        if 0 = (mergeRetryOptions ropts).maxRetries
        then ⟨.error (.mpesa e), [0], []⟩
        else ⟨.error (subscriptTypeError e), [0], []⟩ := by
      unfold makeRequest retryWithBackoff
      simp only [retryLoop, hfn 0, hcls, hdel, not_true, false_or]
    refine ⟨?_, ?_, ?_, ?_⟩
    · rw [hrun]
      split <;> rfl
    · rw [hrun]
      split <;> rfl
    · intro hm
      rw [hrun, if_pos hm.symm]
    · intro hm
      rw [hrun, if_neg (fun hh => hm hh.symm)]
  · intro htr
    have hmr : makeRequest checkSeq netSeq ropts jit
        = retryLoop (makeRequestFn checkSeq netSeq) (mergeRetryOptions ropts)
            jit ((mergeRetryOptions ropts).maxRetries + 1) 0 none := rfl
    obtain ⟨hres, hlen, hslen⟩ := retryLoop_all_reject
      (mergeRetryOptions ropts) jit (makeRequestFn checkSeq netSeq) e hkind
      htr hfn ((mergeRetryOptions ropts).maxRetries + 1) 0 none
      (by omega) (by omega)
    rw [hmr]
    refine ⟨hlen, ?_, hres⟩
    rw [hslen]
    omega

/-- Witness for C1 (amended) at concrete inputs, one per limiter mode: a
local rejection from an exhausted one-request window (truthy retry-after)
under default options — one invocation, no sleep, no network attempt,
`TypeError` propagates; and a Redis rejection with `retry_after = 0`
(zero-length window, `:ttl` fallback) under default options — four
invocations, three backoff sleeps, the rejection re-raised. -/
theorem C1_witness :
    (makeRequest checkSeqReject netOk none zeroJit).invoked = [0] ∧
    (makeRequest checkSeqReject netOk none zeroJit).sleeps = [] ∧
    networkAttempts (makeRequest checkSeqReject netOk none zeroJit)
      checkSeqReject = 0 ∧
    (makeRequest checkSeqReject netOk none zeroJit).result
      = .error (subscriptTypeError eRejectW) ∧
    networkAttempts (makeRequest checkSeqZ netOk none zeroJit) checkSeqZ
      = 0 ∧
    (makeRequest checkSeqZ netOk none zeroJit).invoked.length = 4 ∧
    (makeRequest checkSeqZ netOk none zeroJit).sleeps.length = 3 ∧
    (makeRequest checkSeqZ netOk none zeroJit).result
      = .error (.mpesa eZeroRA) := by
  have h1 := C1_limiter_reject_behavior stExhausted emptyRedisStore rloptsW
    "stk:key" 0 eRejectW checkSeqReject netOk none zeroJit (Or.inl rfl)
    (fun _ => rfl)
  have h2 := C1_limiter_reject_behavior emptyRLStore rstLiveNoExp rloptsZ
    "k" 0 eZeroRA checkSeqZ netOk none zeroJit (Or.inr rfl) (fun _ => rfl)
  obtain ⟨hi1, hs1, hz1, hr1⟩ := h1.2.1 (by decide)
  obtain ⟨hi2, hs2, hr2⟩ := h2.2.2 (by decide)
  exact ⟨hi1, hs1, h1.1, hr1 (by decide), h2.1, hi2.trans (by decide),
    hs2.trans (by decide), hr2⟩

/-- Counterexample to C1 as stated, on both limiters.  Local mode: on a
concrete exhausted window with the default retry policy, `checkLimit`
rejects, yet what `makeRequest` propagates is *not* that rejection (nor
any rate-limit error) but the `TypeError` raised while computing the retry
delay.  Redis mode: a rejection whose `retry_after` is 0 (zero-length
window, never-written `:ttl` fallback) *is* retried by the Retry Engine —
four invocations and three backoff sleeps — contradicting "the operation
is not re-invoked and no backoff sleep occurs". -/
theorem C1_counterexample :
    checkLimit stExhausted rloptsW "stk:key" 0 = .error eRejectW ∧
    resultIsRateLimit (makeRequest checkSeqReject netOk none zeroJit).result
      = false ∧
    (makeRequest checkSeqReject netOk none zeroJit).result
      = .error (.typeError "'MpesaRateLimitError' object is not subscriptable")
      ∧
    (redisCheckLimit rstLiveNoExp rloptsZ "k" 0).1 = .error eZeroRA ∧
    (makeRequest checkSeqZ netOk none zeroJit).invoked.length = 4 ∧
    (makeRequest checkSeqZ netOk none zeroJit).sleeps.length = 3 := by
  refine ⟨rfl, rfl, rfl, rfl, rfl, rfl⟩

/-- On first use of a key, or once the window has expired
(`now ≥ resetAt`), `checkLimit` resets the window to `count = 1`,
`resetAt = now + windowMs`, and admits. -/
theorem checkLimit_reset (st : RLStore) (opts : RLOptions) (key : String)
    (now : Int)
    (h : st (fullKey opts key) = none ∨
      ∃ entry, st (fullKey opts key) = some entry ∧ entry.resetAt ≤ now) :
    checkLimit st opts key now
      = .ok (setRL st (fullKey opts key) ⟨1, now + opts.windowMs⟩) := by
  rcases h with h | ⟨entry, hentry, hexp⟩
  · simp only [checkLimit, h]
  · simp only [checkLimit, hentry]
    rw [if_pos hexp]

/-- Inside an active window (`now < resetAt`) with room left
(`count < maxRequests`), `checkLimit` increments the counter and admits. -/
theorem checkLimit_admit_of (st : RLStore) (opts : RLOptions) (key : String)
    (now c r : Int) (hst : st (fullKey opts key) = some ⟨c, r⟩)
    (hlive : now < r) (hroom : c < opts.maxRequests) :
    checkLimit st opts key now
      = .ok (setRL st (fullKey opts key) ⟨c + 1, r⟩) := by
  simp only [checkLimit, hst]
  rw [if_neg (by simp only [not_le]; exact hlive),
    if_neg (by simp only [ge_iff_le, not_le]; exact hroom)]

/-- Inside an active window with the budget exhausted
(`count ≥ maxRequests`), `checkLimit` rejects (with some error) and the
store is unchanged. -/
theorem checkLimit_reject_of (st : RLStore) (opts : RLOptions) (key : String)
    (now c r : Int) (hst : st (fullKey opts key) = some ⟨c, r⟩)
    (hlive : now < r) (hfull : opts.maxRequests ≤ c) :
    ∃ e, checkLimit st opts key now = .error e := by
  refine ⟨mpesaRateLimitError
    (String.append (String.append "Rate limit exceeded. Try again in "
      (toString ((r - now + 999).fdiv 1000))) " seconds.")
    (some ((r - now + 999).fdiv 1000))
    (some ⟨opts.maxRequests, opts.windowMs, some r⟩), ?_⟩
  simp only [checkLimit, hst]
  rw [if_neg (by simp only [ge_iff_le, not_le]; exact hlive),
    if_pos (by simpa using hfull)]

/-- Decision pattern of a run of in-window `checkLimit` calls: starting
from a window entry `⟨c, r⟩` with every call time before `r`, the `i`-th
call is admitted iff `c + i < maxRequests` (the counter saturates at
`maxRequests`, after which every call is rejected). -/
theorem runCheckCalls_inWindow (opts : RLOptions) (key : String) (r : Int) :
    ∀ (ts : List Int) (st : RLStore) (c : Int),
      st (fullKey opts key) = some ⟨c, r⟩ →
      (∀ u ∈ ts, u < r) →
      ∀ i : Nat, (runCheckCalls opts key st ts).get? i
        = (ts.get? i).map
            (fun _ => decide (c + (i : Int) < opts.maxRequests)) := by
  intro ts
  induction ts with
  | nil =>
    intro st c _ _ i
    simp [runCheckCalls]
  | cons u us ih =>
    intro st c hst hts i
    have hu : u < r := hts u (by simp)
    have hus : ∀ v ∈ us, v < r := fun v hv => hts v (by simp [hv])
    rcases le_or_lt opts.maxRequests c with hfull | hroom
    · obtain ⟨e, hcl⟩ := checkLimit_reject_of st opts key u c r hst hu hfull
      simp only [runCheckCalls, hcl]
      cases i with
      | zero =>
        simp only [List.get?_cons_zero, Option.map_some]
        congr 1
        show false = decide (c + ((0 : Nat) : Int) < opts.maxRequests)
        rw [eq_comm, decide_eq_false_iff_not]
        omega
      | succ j =>
        simp only [List.get?_cons_succ]
        rw [ih st c hst hus j]
        cases husj : us.get? j
        · rfl
        next val =>
          show some (decide (c + (j : Int) < opts.maxRequests))
            = some (decide (c + ((j + 1 : Nat) : Int) < opts.maxRequests))
          congr 1
          rw [decide_eq_decide]
          omega
    · have hcl := checkLimit_admit_of st opts key u c r hst hu hroom
      simp only [runCheckCalls, hcl]
      cases i with
      | zero =>
        simp only [List.get?_cons_zero, Option.map_some]
        congr 1
        show true = decide (c + ((0 : Nat) : Int) < opts.maxRequests)
        rw [eq_comm, decide_eq_true_iff]
        omega
      | succ j =>
        simp only [List.get?_cons_succ]
        rw [ih (setRL st (fullKey opts key) ⟨c + 1, r⟩) (c + 1)
          (by simp [setRL]) hus j]
        cases husj : us.get? j
        · rfl
        next val =>
          show some (decide (c + 1 + (j : Int) < opts.maxRequests))
            = some (decide (c + ((j + 1 : Nat) : Int) < opts.maxRequests))
          congr 1
          rw [decide_eq_decide]
          omega

/-- C3: the local fixed-window limiter behaves as specified (for a positive
request budget): (a) on first use of a key, or once `now ≥ resetAt`, the
window resets to `count = 1`, `resetAt = now + windowMs`, and the call is
admitted; (b) from a fresh key, for any call sequence inside the window
opened by the first call, the `i`-th call (0-based) is admitted iff
`i < maxRequests` — so the `N`-th call is admitted and the `(N+1)`-th
rejected; (c) a rejection raises `MpesaRateLimitError` carrying
`retryAfter = ceil((resetAt - now) / 1000)` seconds (characterised by the
two inequalities) and the details payload
`{limit = maxRequests, windowMs, resetAt}`. -/
theorem C3_local_fixed_window (opts : RLOptions) (key : String) :
    (∀ (st : RLStore) (now : Int),
      (st (fullKey opts key) = none ∨
        ∃ entry, st (fullKey opts key) = some entry ∧ entry.resetAt ≤ now) →
      checkLimit st opts key now
        = .ok (setRL st (fullKey opts key) ⟨1, now + opts.windowMs⟩)) ∧
    (∀ (t0 : Int) (ts : List Int), 1 ≤ opts.maxRequests →
      (∀ u ∈ ts, t0 ≤ u ∧ u < t0 + opts.windowMs) →
      ∀ i : Nat, (runCheckCalls opts key emptyRLStore (t0 :: ts)).get? i
        = ((t0 :: ts).get? i).map
            (fun _ => decide ((i : Int) < opts.maxRequests))) ∧
    (∀ (st : RLStore) (now : Int) (entry : RLEntry),
      st (fullKey opts key) = some entry → now < entry.resetAt →
      opts.maxRequests ≤ entry.count →
      checkLimit st opts key now = .error (mpesaRateLimitError
        (String.append (String.append "Rate limit exceeded. Try again in "
          (toString ((entry.resetAt - now + 999).fdiv 1000))) " seconds.")
        (some ((entry.resetAt - now + 999).fdiv 1000))
        (some ⟨opts.maxRequests, opts.windowMs, some entry.resetAt⟩)) ∧
      entry.resetAt - now ≤ 1000 * ((entry.resetAt - now + 999).fdiv 1000) ∧
      1000 * ((entry.resetAt - now + 999).fdiv 1000 - 1)
        < entry.resetAt - now) := by
  refine ⟨fun st now h => checkLimit_reset st opts key now h, ?_, ?_⟩
  · intro t0 ts hN hwin i
    have hfirst : checkLimit emptyRLStore opts key t0
        = .ok (setRL emptyRLStore (fullKey opts key)
            ⟨1, t0 + opts.windowMs⟩) :=
      checkLimit_reset emptyRLStore opts key t0 (Or.inl rfl)
    simp only [runCheckCalls, hfirst]
    cases i with
    | zero =>
      show some true = some (decide (((0 : Nat) : Int) < opts.maxRequests))
      congr 1
      rw [eq_comm, decide_eq_true_iff]
      omega
    | succ j =>
      simp only [List.get?_cons_succ]
      rw [runCheckCalls_inWindow opts key (t0 + opts.windowMs) ts
        (setRL emptyRLStore (fullKey opts key) ⟨1, t0 + opts.windowMs⟩) 1
        (by simp [setRL]) (fun u hu => (hwin u hu).2) j]
      cases husj : ts.get? j
      · rfl
      next val =>
        show some (decide (1 + (j : Int) < opts.maxRequests))
          = some (decide (((j + 1 : Nat) : Int) < opts.maxRequests))
        congr 1
        rw [decide_eq_decide]
        omega
  · intro st now entry hst hlive hfull
    refine ⟨?_, ?_, ?_⟩
    · simp only [checkLimit, hst]
      rw [if_neg (by simp only [ge_iff_le, not_le]; exact hlive),
        if_pos (by simpa using hfull)]
    · rw [Int.fdiv_eq_ediv _ (by norm_num)]
      omega
    · rw [Int.fdiv_eq_ediv _ (by norm_num)]
      omega

/-- Witness for C3 at a concrete input (Scenario B of the spec): limiter
`maxRequests = 2, windowMs = 60000`, calls at t = 0, 10, 20 admit, admit,
reject; a rejection on an exhausted window at t = 0 carries
`retryAfter = 60` and the `{limit, windowMs, resetAt}` payload. -/
theorem C3_witness :
    checkLimit emptyRLStore ⟨2, 60000, "mpesa"⟩ "k" 5
      = .ok (setRL emptyRLStore (fullKey ⟨2, 60000, "mpesa"⟩ "k")
          ⟨1, 60005⟩) ∧
    (runCheckCalls ⟨2, 60000, "mpesa"⟩ "k" emptyRLStore [0, 10, 20]).get? 2
      = some false ∧
    checkLimit stExhausted rloptsW "stk:key" 0 = .error (mpesaRateLimitError
      "Rate limit exceeded. Try again in 60 seconds." (some 60)
      (some ⟨1, 60000, some 60000⟩)) := by
  have h := C3_local_fixed_window ⟨2, 60000, "mpesa"⟩ "k"
  have hW := C3_local_fixed_window rloptsW "stk:key"
  refine ⟨h.1 emptyRLStore 5 (Or.inl rfl), ?_, ?_⟩
  · have hb := h.2.1 0 [10, 20] (by norm_num)
      (by intro u hu; fin_cases hu <;> norm_num) 2
    simpa using hb
  · have hc := (hW.2.2 stExhausted 0 ⟨1, 60000⟩ (by rfl) (by decide)
      (by decide)).1
    simpa using hc

/-- Unfold one local run step through `localDecide`. -/
theorem runCheckCalls_cons (opts : RLOptions) (key : String) (st : RLStore)
    (t : Int) (ts : List Int) :
    runCheckCalls opts key st (t :: ts)
      = (localDecide st opts key t).1 ::
          runCheckCalls opts key (localDecide st opts key t).2 ts := by
  rcases h : checkLimit st opts key t with e | st' <;>
    simp only [runCheckCalls, localDecide, h]

/-- Unfold one Redis run step through `redisDecide`. -/
theorem runRedisCalls_cons (opts : RLOptions) (key : String) (st : RedisStore)
    (t : Int) (ts : List Int) :
    runRedisCalls opts key st (t :: ts)
      = (redisDecide st opts key t).1 ::
          runRedisCalls opts key (redisDecide st opts key t).2 ts := by
  rcases h : redisCheckLimit st opts key t with ⟨res, st'⟩
  cases res <;> simp only [runRedisCalls, redisDecide, h]

/-- A Redis `checkLimit` on a key with no live counter: admitted (given a
positive budget), with a fresh counter of 1 expiring a whole number of
seconds after `now`. -/
theorem redisStep_fresh (opts : RLOptions) (key : String) (now : Int)
    (rst : RedisStore) (hmax : 1 ≤ opts.maxRequests)
    (hlive : redisLive rst (fullKey opts key) now = none) :
    (redisDecide rst opts key now).1 = true ∧
    (redisDecide rst opts key now).2 (fullKey opts key)
      = some ⟨1, some (now + ((opts.windowMs + 999).fdiv 1000) * 1000)⟩ := by
  have hincr : redisIncr rst (fullKey opts key) now
      = (1, setRedis rst (fullKey opts key) ⟨1, none⟩) := by
    simp [redisIncr, hlive]
  have hlive1 : redisLive (setRedis rst (fullKey opts key) ⟨1, none⟩)
      (fullKey opts key) now = some ⟨1, none⟩ := by
    simp [redisLive, setRedis]
  have hred : redisCheckLimit rst opts key now
      = (.ok (), setRedis (setRedis rst (fullKey opts key) ⟨1, none⟩)
          (fullKey opts key)
          ⟨1, some (now + ((opts.windowMs + 999).fdiv 1000) * 1000)⟩) := by
    simp only [redisCheckLimit, hincr, if_true]
    rw [if_neg (by omega)]
    simp [redisExpire, hlive1]
  simp [redisDecide, hred, setRedis]

/-- A Redis `checkLimit` on a key with a live counter `v ≥ 1`: the `incr`
persists (the counter becomes `v + 1`, expiry untouched) and the call is
admitted iff `v < maxRequests`; the decision and the post-call counter do
not depend on the best-effort `...:ttl` read, which only shapes the
rejection message. -/
theorem redisStep_live (opts : RLOptions) (key : String) (now : Int)
    (rst : RedisStore) (v : Int) (x : Option Int) (hv : 1 ≤ v)
    (hlive : redisLive rst (fullKey opts key) now = some ⟨v, x⟩) :
    (redisDecide rst opts key now).1 = decide (v < opts.maxRequests) ∧
    (redisDecide rst opts key now).2 (fullKey opts key) = some ⟨v + 1, x⟩ := by
  have hincr : redisIncr rst (fullKey opts key) now
      = (v + 1, setRedis rst (fullKey opts key) ⟨v + 1, x⟩) := by
    simp [redisIncr, hlive]
  constructor
  · simp only [redisDecide, redisCheckLimit, hincr]
    rw [if_neg (by omega : ¬ (v + 1 = 1))]
    by_cases hgt : v + 1 > opts.maxRequests
    · rw [if_pos hgt]
      show false = decide (v < opts.maxRequests)
      rw [eq_comm, decide_eq_false_iff_not]
      omega
    · rw [if_neg hgt]
      show true = decide (v < opts.maxRequests)
      rw [eq_comm, decide_eq_true_iff]
      omega
  · simp only [redisDecide, redisCheckLimit, hincr]
    rw [if_neg (by omega : ¬ (v + 1 = 1))]
    by_cases hgt : v + 1 > opts.maxRequests
    · rw [if_pos hgt]
      show setRedis rst (fullKey opts key) ⟨v + 1, x⟩ (fullKey opts key)
        = some ⟨v + 1, x⟩
      simp [setRedis]
    · rw [if_neg hgt]
      show setRedis rst (fullKey opts key) ⟨v + 1, x⟩ (fullKey opts key)
        = some ⟨v + 1, x⟩
      simp [setRedis]

/-- One-step simulation: from `C4Inv`-related states (with a positive
budget and a window that is a whole number of seconds), one local and one
Redis `checkLimit` call at the same instant produce the same admit/reject
decision and re-establish `C4Inv`. -/
theorem C4_step (opts : RLOptions) (key : String)
    (hmax : 1 ≤ opts.maxRequests) (hdvd : (1000 : Int) ∣ opts.windowMs)
    (lst : RLStore) (rst : RedisStore) (now : Int)
    (hinv : C4Inv opts.maxRequests (fullKey opts key) lst rst) :
    (localDecide lst opts key now).1 = (redisDecide rst opts key now).1 ∧
    C4Inv opts.maxRequests (fullKey opts key)
      (localDecide lst opts key now).2 (redisDecide rst opts key now).2 := by
  have hsecs : ((opts.windowMs + 999).fdiv 1000) * 1000 = opts.windowMs := by
    obtain ⟨k, hk⟩ := hdvd
    have hfd : (opts.windowMs + 999).fdiv 1000 = k := by
      rw [Int.fdiv_eq_ediv _ (by norm_num)]
      omega
    rw [hfd]
    omega
  rcases hinv with ⟨hl, hr⟩ | ⟨v, r, hv, hl, hr⟩
  · have hlive : redisLive rst (fullKey opts key) now = none := by
      simp [redisLive, hr]
    obtain ⟨hd, hs⟩ := redisStep_fresh opts key now rst hmax hlive
    have hld : localDecide lst opts key now
        = (true, setRL lst (fullKey opts key) ⟨1, now + opts.windowMs⟩) := by
      simp [localDecide, checkLimit_reset lst opts key now (Or.inl hl)]
    refine ⟨by rw [hld, hd], Or.inr ⟨1, now + opts.windowMs, le_refl 1,
      ?_, ?_⟩⟩
    · rw [hld]
      simp [setRL, min_eq_left hmax]
    · rw [hs, hsecs]
  · rcases le_or_lt r now with hexp | hlive_t
    · have hlive : redisLive rst (fullKey opts key) now = none := by
        simp only [redisLive, hr]
        rw [if_pos (by omega)]
      obtain ⟨hd, hs⟩ := redisStep_fresh opts key now rst hmax hlive
      have hld : localDecide lst opts key now
          = (true, setRL lst (fullKey opts key) ⟨1, now + opts.windowMs⟩) := by
        simp [localDecide,
          checkLimit_reset lst opts key now (Or.inr ⟨_, hl, hexp⟩)]
      refine ⟨by rw [hld, hd], Or.inr ⟨1, now + opts.windowMs, le_refl 1,
        ?_, ?_⟩⟩
      · rw [hld]
        simp [setRL, min_eq_left hmax]
      · rw [hs, hsecs]
    · have hlive : redisLive rst (fullKey opts key) now = some ⟨v, some r⟩
          := by
        simp only [redisLive, hr]
        rw [if_neg (by omega)]
      obtain ⟨hd, hs⟩ := redisStep_live opts key now rst v (some r) hv hlive
      rcases le_or_lt opts.maxRequests v with hfull | hroom
      · obtain ⟨e, hcl⟩ := checkLimit_reject_of lst opts key now
          (min v opts.maxRequests) r hl hlive_t (by omega)
        have hld : localDecide lst opts key now = (false, lst) := by
          simp [localDecide, hcl]
        refine ⟨?_, Or.inr ⟨v + 1, r, by omega, ?_, by rw [hs]⟩⟩
        · rw [hld, hd]
          show false = decide (v < opts.maxRequests)
          rw [eq_comm, decide_eq_false_iff_not]
          omega
        · rw [hld]
          show lst (fullKey opts key)
            = some ⟨min (v + 1) opts.maxRequests, r⟩
          rw [hl]
          have hmm : min v opts.maxRequests = min (v + 1) opts.maxRequests
            := by omega
          rw [hmm]
      · have hcl := checkLimit_admit_of lst opts key now
          (min v opts.maxRequests) r hl hlive_t (by omega)
        have hld : localDecide lst opts key now = (true,
            setRL lst (fullKey opts key)
              ⟨min v opts.maxRequests + 1, r⟩) := by
          simp [localDecide, hcl]
        refine ⟨?_, Or.inr ⟨v + 1, r, by omega, ?_, by rw [hs]⟩⟩
        · rw [hld, hd]
          show true = decide (v < opts.maxRequests)
          rw [eq_comm, decide_eq_true_iff]
          omega
        · rw [hld]
          have hmm : min v opts.maxRequests + 1 = min (v + 1) opts.maxRequests
            := by omega
          simp [setRL, hmm]

/-- Decision-trace equality for `C4Inv`-related states, by induction on the
call-time list. -/
theorem C4_run_equiv_aux (opts : RLOptions) (key : String)
    (hmax : 1 ≤ opts.maxRequests) (hdvd : (1000 : Int) ∣ opts.windowMs) :
    ∀ (ts : List Int) (lst : RLStore) (rst : RedisStore),
      C4Inv opts.maxRequests (fullKey opts key) lst rst →
      runCheckCalls opts key lst ts = runRedisCalls opts key rst ts := by
  intro ts
  induction ts with
  | nil => intro lst rst _; rfl
  | cons t ts ih =>
    intro lst rst hinv
    rw [runCheckCalls_cons, runRedisCalls_cons]
    obtain ⟨hdec, hinv'⟩ := C4_step opts key hmax hdvd lst rst t hinv
    rw [hdec]
    exact congrArg _ (ih _ _ hinv')

/-- C4 (amended): from fresh state and for any single-process sequence of
call instants on one key, the local `RateLimiter` and the
`RedisRateLimiter` produce the same admit/reject decision at every
position — *provided* the budget is positive and `windowMs` is a whole
number of seconds (`1000 ∣ windowMs`).  Outside those conditions the two
limiters can disagree (see the counterexample): the Redis key's expiry is
rounded up to whole seconds, and with `maxRequests = 0` the local limiter
still admits the window-opening call while the Redis one rejects it. -/
theorem C4_local_redis_agree (opts : RLOptions) (key : String)
    (ts : List Int) (hmax : 1 ≤ opts.maxRequests)
    (hdvd : (1000 : Int) ∣ opts.windowMs) :
    runCheckCalls opts key emptyRLStore ts
      = runRedisCalls opts key emptyRedisStore ts :=
  C4_run_equiv_aux opts key hmax hdvd ts emptyRLStore emptyRedisStore
    (Or.inl ⟨rfl, rfl⟩)

/-- Witness for C4 (amended) at a concrete input: 2 requests per 60 s, four
calls inside and across the window boundary; both limiters produce
`[admit, admit, reject, admit]`. -/
theorem C4_witness :
    runCheckCalls ⟨2, 60000, "mpesa"⟩ "k" emptyRLStore [0, 10, 20, 60000]
      = runRedisCalls ⟨2, 60000, "mpesa"⟩ "k" emptyRedisStore
          [0, 10, 20, 60000] ∧
    runCheckCalls ⟨2, 60000, "mpesa"⟩ "k" emptyRLStore [0, 10, 20, 60000]
      = [true, true, false, true] := by
  refine ⟨C4_local_redis_agree ⟨2, 60000, "mpesa"⟩ "k" [0, 10, 20, 60000]
    (by decide) (by decide), by decide⟩

/-- Counterexample to C4 as stated: with `windowMs = 1500` (not a whole
number of seconds) and `maxRequests = 1`, calls at t = 0 and t = 1600
yield `[admit, admit]` locally (the 1500 ms window has reset) but
`[admit, reject]` on Redis (the key's expiry was rounded up to 2 s); and
with `maxRequests = 0` the very first call is admitted locally but
rejected on Redis. -/
theorem C4_counterexample :
    (runCheckCalls optsFractionalWindow "k" emptyRLStore [0, 1600]
        = [true, true] ∧
      runRedisCalls optsFractionalWindow "k" emptyRedisStore [0, 1600]
        = [true, false]) ∧
    (runCheckCalls optsZeroMax "k" emptyRLStore [0] = [true] ∧
      runRedisCalls optsZeroMax "k" emptyRedisStore [0] = [false]) := by
  exact ⟨⟨by decide, by decide⟩, ⟨by decide, by decide⟩⟩
